import Mathlib

/-!
Formal model of the `cloud-format-converter` engine
(`src/cloud_format_converter/converter.py`), a bidirectional translator
between CloudFormation templates and Terraform configurations, together
with proofs and refutations of the specified properties.

The engine operates on the generic document tree produced by the external
parsers (JSON/YAML/HCL), so the model works directly on that tree.  Python
dictionaries are modelled as insertion-ordered association lists with
unique keys; fallible Python code (statements that can raise) is modelled
in the `Except String` monad, the error string naming the exception.
Numeric scalars are modelled as integers; no behaviour considered here
inspects a floating-point scalar.
-/

/-- The generic document tree: the shared representation both formats are
parsed into (nested mapping / sequence / scalar structure). -/
inductive Value where
  | vnull : Value
  | vbool : Bool → Value
  | vint : Int → Value
  | vstr : String → Value
  | vlist : List Value → Value
  | vobj : List (String × Value) → Value

abbrev Obj := List (String × Value)

/-- Python `dict` lookup (`d.get(k)`).  All dictionaries built by the
converter carry unique keys, so first-match lookup coincides with the
Python dictionary. -/
def pyGet {α : Type} : List (String × α) → String → Option α
  | [], _ => none
  | (k', v) :: rest, k => if k' = k then some v else pyGet rest k

/-- Python `d.get(k, default)`. -/
def pyGetD {α : Type} (m : List (String × α)) (k : String) (d : α) : α :=
  (pyGet m k).getD d

/-- Python `k in d` for a dictionary. -/
def hasKey {α : Type} (m : List (String × α)) (k : String) : Bool :=
  (pyGet m k).isSome

/-- Python `d[k] = v`: replace in place when the key exists, else append
(insertion order preserved). -/
def setKey {α : Type} : List (String × α) → String → α → List (String × α)
  | [], k, v => [(k, v)]
  | (k', v') :: rest, k, v =>
    if k' = k then (k', v) :: rest else (k', v') :: setKey rest k v

/-- Python `base.update(extra)`. -/
def updateObj {α : Type} (base extra : List (String × α)) : List (String × α) :=
  extra.foldl (fun m p => setKey m p.1 p.2) base

/-- Python `d.pop(k, default)`: the popped value (or the default) together
with the dictionary without the key. -/
def popKey (m : Obj) (k : String) (d : Value) : Value × Obj :=
  match pyGet m k with
  | some v => (v, m.filter (fun p => !(p.1 == k)))
  | none => (d, m)

/-- Python truthiness (`if v:`) on tree nodes. -/
def truthy : Value → Bool
  | .vnull => false
  | .vbool b => b
  | .vint n => n != 0
  | .vstr s => !(s == "")
  | .vlist l => !l.isEmpty
  | .vobj m => !m.isEmpty

/-- The `{k: v for k, v in d.items() if v}` empty-section filter used by
both entry points. -/
def filterTruthy (m : Obj) : Obj := m.filter (fun p => truthy p.2)

/-- Python `s.lower()` (the identifiers handled here are ASCII). -/
def pyLower (s : String) : String := ⟨s.toList.map Char.toLower⟩

/-- Python `s.startswith(pat)`. -/
def pyStartsWith (s pat : String) : Bool := pat.toList.isPrefixOf s.toList

/-- Worker for `pySplit`.  The character budget only bounds the
recursion for the termination checker: every step consumes at least one
character, so a budget one larger than the input is never exhausted. -/
def goSplit (s0 : Char) (srest : List Char) : Nat → List Char → List Char → List (List Char)
  | _, [], cur => [cur.reverse]
  | 0, l, cur => [cur.reverse ++ l]
  | fuel + 1, c :: rest, cur =>
    if (s0 :: srest).isPrefixOf (c :: rest) then
      cur.reverse :: goSplit s0 srest fuel (rest.drop srest.length) []
    else goSplit s0 srest fuel rest (c :: cur)

/-- Python `s.split(sep)` for non-empty `sep`. -/
def pySplit (s sep : String) : List String :=
  match sep.toList with
  | [] => [s]
  | s0 :: srest => (goSplit s0 srest (s.toList.length + 1) s.toList []).map (fun l => ⟨l⟩)

/-- Worker for `pyReplace`, with the same never-exhausted character
budget as `goSplit`. -/
def goReplace (p0 : Char) (prest : List Char) (repl : List Char) : Nat → List Char → List Char
  | _, [] => []
  | 0, l => l
  | fuel + 1, c :: rest =>
    if (p0 :: prest).isPrefixOf (c :: rest) then
      repl ++ goReplace p0 prest repl fuel (rest.drop prest.length)
    else c :: goReplace p0 prest repl fuel rest

/-- Python `s.replace(pat, repl)` for non-empty `pat`: every
non-overlapping occurrence, scanning left to right. -/
def pyReplace (s pat repl : String) : String :=
  match pat.toList with
  | [] => s
  | p0 :: prest => ⟨goReplace p0 prest repl.toList (s.toList.length + 1) s.toList⟩

/-- Python `s.title()`: an alphabetic character is upper-cased when the
previous character is not alphabetic and lower-cased otherwise. -/
def pyTitleAux : List Char → Bool → List Char
  | [], _ => []
  | c :: rest, prevAlpha =>
    (if c.isAlpha then (if prevAlpha then c.toLower else c.toUpper) else c)
      :: pyTitleAux rest c.isAlpha

def pyTitle (s : String) : String := ⟨pyTitleAux s.toList false⟩

/-- Python substring test `pat in hay` (for non-empty `pat`). -/
def containsSub (pat : List Char) : List Char → Bool
  | [] => pat.isEmpty
  | c :: rest => pat.isPrefixOf (c :: rest) || containsSub pat rest

def strContains (hay pat : String) : Bool := containsSub pat.toList hay.toList

/-- Python list indexing `l[i]`, which raises `IndexError` out of range. -/
def pyListGet {α : Type} (l : List α) (i : Nat) : Except String α :=
  match l.get? i with
  | some x => .ok x
  | none => .error "IndexError: list index out of range"

/-- `converter.py:10-56` — the forward resource-type catalog
(CloudFormation type → Terraform type), in source order. -/
def resource_type_mappings : List (String × String) := [
  ("AWS::EC2::Instance", "aws_instance"),
  ("AWS::EC2::Volume", "aws_ebs_volume"),
  ("AWS::EC2::VPC", "aws_vpc"),
  ("AWS::EC2::Subnet", "aws_subnet"),
  ("AWS::EC2::SecurityGroup", "aws_security_group"),
  ("AWS::EC2::RouteTable", "aws_route_table"),
  ("AWS::EC2::NetworkInterface", "aws_network_interface"),
  ("AWS::S3::Bucket", "aws_s3_bucket"),
  ("AWS::S3::BucketPolicy", "aws_s3_bucket_policy"),
  ("AWS::EFS::FileSystem", "aws_efs_file_system"),
  ("AWS::RDS::DBInstance", "aws_db_instance"),
  ("AWS::RDS::DBCluster", "aws_rds_cluster"),
  ("AWS::DynamoDB::Table", "aws_dynamodb_table"),
  ("AWS::ElasticLoadBalancingV2::LoadBalancer", "aws_lb"),
  ("AWS::ElasticLoadBalancingV2::TargetGroup", "aws_lb_target_group"),
  ("AWS::ElasticLoadBalancingV2::Listener", "aws_lb_listener"),
  ("AWS::IAM::Role", "aws_iam_role"),
  ("AWS::IAM::Policy", "aws_iam_policy"),
  ("AWS::IAM::User", "aws_iam_user"),
  ("AWS::IAM::Group", "aws_iam_group"),
  ("AWS::Lambda::Function", "aws_lambda_function"),
  ("AWS::ApiGateway::RestApi", "aws_api_gateway_rest_api"),
  ("AWS::ApiGateway::Resource", "aws_api_gateway_resource"),
  ("AWS::ApiGateway::Method", "aws_api_gateway_method"),
  ("AWS::ECS::Cluster", "aws_ecs_cluster"),
  ("AWS::ECS::Service", "aws_ecs_service"),
  ("AWS::ECS::TaskDefinition", "aws_ecs_task_definition"),
  ("AWS::CloudWatch::Alarm", "aws_cloudwatch_metric_alarm"),
  ("AWS::CloudWatch::Dashboard", "aws_cloudwatch_dashboard"),
  ("AWS::SNS::Topic", "aws_sns_topic")]

/-- `converter.py:59-61` — the reverse catalog, built mechanically by
swapping each forward entry (`{v: k for k, v in ...}`; the forward values
are pairwise distinct, so first-match lookup on the swapped list coincides
with the Python dictionary comprehension). -/
def reverse_resource_type_mappings : List (String × String) :=
  resource_type_mappings.map (fun p => (p.2, p.1))

/-- Pure lookup in the forward catalog. -/
def table_to_tf (cf_type : String) : Option String :=
  pyGet resource_type_mappings cf_type

/-- Pure lookup in the reverse catalog. -/
def table_to_cf (tf_type : String) : Option String :=
  pyGet reverse_resource_type_mappings tf_type

/-- `converter.py:246-249` — CloudFormation→Terraform type translation:
`self.resource_type_mappings.get(cf_type, f"aws_{cf_type.split('::')[1].lower()}_{cf_type.split('::')[2].lower()}")`.
Python evaluates `dict.get`'s default argument eagerly, so the fallback
f-string — and with it the two indexings of the split — runs before the
catalog is consulted, even for catalogued identifiers. -/
def cf_type_to_tf_type (cf_type : String) : Except String String := do
  let segs := pySplit cf_type "::"
  let s1 ← pyListGet segs 1
  let s2 ← pyListGet segs 2
  let fb := "aws_" ++ pyLower s1 ++ "_" ++ pyLower s2
  pure (pyGetD resource_type_mappings cf_type fb)

/-- `converter.py:220-223` — Terraform→CloudFormation type translation:
`self.reverse_resource_type_mappings.get(resource_type, f"AWS::{resource_type.split('_')[1].title()}::{resource_type.split('_')[2].title()}")`,
again with the fallback f-string evaluated eagerly. -/
def tf_type_to_cf_type (resource_type : String) : Except String String := do
  let segs := pySplit resource_type "_"
  let s1 ← pyListGet segs 1
  let s2 ← pyListGet segs 2
  let fb := "AWS::" ++ pyTitle s1 ++ "::" ++ pyTitle s2
  pure (pyGetD reverse_resource_type_mappings resource_type fb)

/-! ### String utilities: JSON serialization, Python `str`/`repr`, and the
regex-derived scanners used by the expression translator. -/

def lbraceChar : Char := Char.ofNat 123
def rbraceChar : Char := Char.ofNat 125
def squoteChar : Char := Char.ofNat 39

def hex4 (n : Nat) : String :=
  let ds := Nat.toDigits 16 n
  ⟨List.replicate (4 - ds.length) '0' ++ ds⟩

/-- One character of a JSON string, escaped as `json.dumps` does. -/
def jsonQuoteChar (c : Char) : String :=
  if c = '"' then "\\\""
  else if c = '\\' then "\\\\"
  else if c = '\n' then "\\n"
  else if c = '\t' then "\\t"
  else if c = '\r' then "\\r"
  else if c.toNat < 32 then "\\u" ++ hex4 c.toNat
  else String.singleton c

def jsonQuote (s : String) : String :=
  "\"" ++ String.join (s.toList.map jsonQuoteChar) ++ "\""

mutual

/-- Python `json.dumps` with its default separators (`", "` and `": "`). -/
def jsonDumps : Value → String
  | .vnull => "null"
  | .vbool true => "true"
  | .vbool false => "false"
  | .vint n => toString n
  | .vstr s => jsonQuote s
  | .vlist items => "[" ++ jsonDumpsSeq items ++ "]"
  | .vobj kvs => "\x7b" ++ jsonDumpsEntries kvs ++ "\x7d"

def jsonDumpsSeq : List Value → String
  | [] => ""
  | [x] => jsonDumps x
  | x :: rest => jsonDumps x ++ ", " ++ jsonDumpsSeq rest

def jsonDumpsEntries : List (String × Value) → String
  | [] => ""
  | [(k, v)] => jsonQuote k ++ ": " ++ jsonDumps v
  | (k, v) :: rest => jsonQuote k ++ ": " ++ jsonDumps v ++ ", " ++ jsonDumpsEntries rest

end

/-- One character inside a Python single-quoted `repr`.  (The engine only
ever passes plain scalar strings through `repr`, so the single-quote form
suffices.) -/
def pyReprChar (c : Char) : String :=
  if c = '\\' then "\\\\"
  else if c = squoteChar then "\\\x27"
  else if c = '\n' then "\\n"
  else if c = '\t' then "\\t"
  else if c = '\r' then "\\r"
  else String.singleton c

def pyReprStr (s : String) : String :=
  "\x27" ++ String.join (s.toList.map pyReprChar) ++ "\x27"

mutual

/-- Python `repr` on tree nodes. -/
def pyRepr : Value → String
  | .vnull => "None"
  | .vbool true => "True"
  | .vbool false => "False"
  | .vint n => toString n
  | .vstr s => pyReprStr s
  | .vlist items => "[" ++ pyReprSeq items ++ "]"
  | .vobj kvs => "\x7b" ++ pyReprEntries kvs ++ "\x7d"

def pyReprSeq : List Value → String
  | [] => ""
  | [x] => pyRepr x
  | x :: rest => pyRepr x ++ ", " ++ pyReprSeq rest

def pyReprEntries : List (String × Value) → String
  | [] => ""
  | [(k, v)] => pyReprStr k ++ ": " ++ pyRepr v
  | (k, v) :: rest => pyReprStr k ++ ": " ++ pyRepr v ++ ", " ++ pyReprEntries rest

end

/-- Python `str` on tree nodes (`str` of a container is its `repr`). -/
def pyStr : Value → String
  | .vstr s => s
  | v => pyRepr v

theorem length_dropWhile_le {α : Type} (p : α → Bool) (l : List α) :
    (l.dropWhile p).length ≤ l.length := by
  induction l with
  | nil => simp
  | cons a as ih =>
    simp only [List.dropWhile]
    split
    · simpa using Nat.le_succ_of_le ih
    · simp

theorem length_tail_le {α : Type} (l : List α) : l.tail.length ≤ l.length := by
  cases l <;> simp

/-- `converter.py:433` — `re.sub(r'\$\{([^}]+)\}', r'${var.\1}', template)`:
each `${X}` with non-empty brace-free `X` becomes `${var.X}`; a `$` that
opens no such group is left in place and scanning resumes at the next
character, exactly as the regex engine does. -/
def simpleSubAux : Nat → List Char → List Char
  | _, [] => []
  | _, [c] => [c]
  | 0, l => l
  | fuel + 1, c1 :: c2 :: rest =>
    if c1 = '$' ∧ c2 = lbraceChar then
      if (rest.takeWhile (fun c => c != rbraceChar)).isEmpty ∨
          (rest.dropWhile (fun c => c != rbraceChar)).isEmpty then
        c1 :: simpleSubAux fuel (c2 :: rest)
      else
        ("$\x7bvar.".toList ++ rest.takeWhile (fun c => c != rbraceChar)
            ++ [rbraceChar])
          ++ simpleSubAux fuel (rest.dropWhile (fun c => c != rbraceChar)).tail
    else c1 :: simpleSubAux fuel (c2 :: rest)

def _convert_simple_sub (template : String) : String :=
  ⟨simpleSubAux (template.toList.length + 1) template.toList⟩

/-- `converter.py:361` — `re.sub(r'\$\{var\.([^}]+)\}', r'${{\1}}', s)`.
The replacement is a plain string, so each `${var.X}` literally becomes
`${{X}}` (doubled braces). -/
def subVarAux : Nat → List Char → List Char
  | _, [] => []
  | 0, l => l
  | fuel + 1, c :: rest =>
    if ("$\x7bvar.".toList).isPrefixOf (c :: rest) then
      if ((c :: rest).drop 6 |>.takeWhile (fun ch => ch != rbraceChar)).isEmpty ∨
          ((c :: rest).drop 6 |>.dropWhile (fun ch => ch != rbraceChar)).isEmpty then
        c :: subVarAux fuel rest
      else
        ("$\x7b\x7b".toList
            ++ ((c :: rest).drop 6 |>.takeWhile (fun ch => ch != rbraceChar))
            ++ [rbraceChar, rbraceChar])
          ++ subVarAux fuel ((c :: rest).drop 6 |>.dropWhile (fun ch => ch != rbraceChar)).tail
    else c :: subVarAux fuel rest

def _convert_to_cf_sub (tf_expression : String) : Value :=
  .vobj [("Fn::Sub", .vstr ⟨subVarAux (tf_expression.toList.length + 1) tf_expression.toList⟩)]

/-- Characters matched by the regex class `\s`. -/
def isRegexSpace (c : Char) : Bool :=
  c = ' ' ∨ c = '\t' ∨ c = '\n' ∨ c = '\r' ∨ c = '\x0b' ∨ c = '\x0c'

/-- `converter.py:352` — `re.match(r'join\("([^"]+)",\s*\[(.*)\]\)', s)`:
anchored at the start; the delimiter group is a non-empty run of
non-quote characters; the greedy `(.*)` (which cannot cross a newline)
ends at the last `])` reachable without one; trailing text is allowed.
Returns the two captured groups. -/
def matchJoin (s : String) : Option (String × String) :=
  let l := s.toList
  if ("join(\"".toList).isPrefixOf l then
    let after := l.drop 6
    let cap1 := after.takeWhile (fun c => c != '"')
    let rem1 := after.dropWhile (fun c => c != '"')
    if cap1.isEmpty ∨ rem1.isEmpty then none
    else
      match rem1.tail with
      | ',' :: rem3 =>
        let rem4 := rem3.dropWhile isRegexSpace
        match rem4 with
        | '[' :: rem5 =>
          let seg := rem5.takeWhile (fun c => c != '\n')
          match ((List.range (seg.length + 1)).filter (fun i =>
              rem5.get? i == some ']' && rem5.get? (i + 1) == some ')')).getLast? with
          | some i => some (⟨cap1⟩, ⟨rem5.take i⟩)
          | none => none
        | _ => none
      | _ => none
  else none

/-! A JSON reader modelling Python's `json.loads` on the engine's tree.
Recursion is bounded by a character budget one larger than the input —
every recursive call consumes at least one character, so the budget never
runs out on any input actually parsed. Numeric literals are read as
integers (a fractional or exponent part is reported as unmodelled; no
behaviour considered here feeds the reader a float). -/

def jsonSkipWs (l : List Char) : List Char :=
  l.dropWhile (fun c => c = ' ' ∨ c = '\t' ∨ c = '\n' ∨ c = '\r')

def hexDigitVal (c : Char) : Option Nat :=
  if '0' ≤ c ∧ c ≤ '9' then some (c.toNat - 48)
  else if 'a' ≤ c ∧ c ≤ 'f' then some (c.toNat - 87)
  else if 'A' ≤ c ∧ c ≤ 'F' then some (c.toNat - 55)
  else none

/-- The single-character JSON escapes. -/
def jsonEscChar (e : Char) : Option String :=
  if e = '"' then some "\""
  else if e = '\\' then some "\\"
  else if e = '/' then some "/"
  else if e = 'n' then some "\n"
  else if e = 't' then some "\t"
  else if e = 'r' then some "\r"
  else if e = 'b' then some "\x08"
  else if e = 'f' then some "\x0c"
  else none

/-- Body of a JSON string after the opening quote. -/
def jsonReadString : List Char → Except String (String × List Char)
  | [] => .error "json: unterminated string"
  | '"' :: rest => .ok ("", rest)
  | '\\' :: [] => .error "json: unterminated escape"
  | '\\' :: e :: rest2 =>
    if e = 'u' then
      match rest2 with
      | h1 :: h2 :: h3 :: h4 :: rest3 =>
        match hexDigitVal h1, hexDigitVal h2, hexDigitVal h3, hexDigitVal h4 with
        | some a, some b, some c3, some d => do
          let (tailStr, rest') ← jsonReadString rest3
          .ok (String.singleton (Char.ofNat (((a * 16 + b) * 16 + c3) * 16 + d)) ++ tailStr, rest')
        | _, _, _, _ => .error "json: invalid unicode escape"
      | _ => .error "json: invalid unicode escape"
    else
      match jsonEscChar e with
      | some piece => do
        let (tailStr, rest') ← jsonReadString rest2
        .ok (piece ++ tailStr, rest')
      | none => .error "json: invalid escape"
  | c :: rest => do
    let (tailStr, rest') ← jsonReadString rest
    .ok (String.singleton c ++ tailStr, rest')

def jsonReadInt : List Char → Except String (Value × List Char)
  | l =>
    let (neg, l1) := match l with
      | '-' :: rest => (true, rest)
      | _ => (false, l)
    let digits := l1.takeWhile (fun c => c.isDigit)
    let rest := l1.dropWhile (fun c => c.isDigit)
    if digits.isEmpty then .error "json: expecting value"
    else
      match rest with
      | '.' :: _ => .error "json: non-integer literals are not modelled"
      | 'e' :: _ => .error "json: non-integer literals are not modelled"
      | 'E' :: _ => .error "json: non-integer literals are not modelled"
      | _ =>
        let n : Nat := digits.foldl (fun acc c => acc * 10 + (c.toNat - 48)) 0
        .ok (.vint (if neg then -(n : Int) else (n : Int)), rest)

mutual

def jsonParseValue : Nat → List Char → Except String (Value × List Char)
  | 0, _ => .error "json: recursion budget exhausted"
  | fuel + 1, l =>
    match jsonSkipWs l with
    | [] => .error "json: expecting value"
    | c :: rest =>
      if c = '"' then do
        let (s, r) ← jsonReadString rest
        .ok (.vstr s, r)
      else if c = '[' then
        match jsonSkipWs rest with
        | ']' :: r2 => .ok (.vlist [], r2)
        | l2 => do
          let (items, r) ← jsonParseItems fuel l2
          .ok (.vlist items, r)
      else if c = lbraceChar then
        let l2 := jsonSkipWs rest
        if l2.head? = some rbraceChar then .ok (.vobj [], l2.tail)
        else do
          let (entries, r) ← jsonParseEntries fuel l2
          .ok (.vobj entries, r)
      else if ("true".toList).isPrefixOf (c :: rest) then .ok (.vbool true, (c :: rest).drop 4)
      else if ("false".toList).isPrefixOf (c :: rest) then .ok (.vbool false, (c :: rest).drop 5)
      else if ("null".toList).isPrefixOf (c :: rest) then .ok (.vnull, (c :: rest).drop 4)
      else jsonReadInt (c :: rest)

def jsonParseItems : Nat → List Char → Except String (List Value × List Char)
  | 0, _ => .error "json: recursion budget exhausted"
  | fuel + 1, l => do
    let (v, r) ← jsonParseValue fuel l
    match jsonSkipWs r with
    | ',' :: r2 => do
      let (vs, r3) ← jsonParseItems fuel r2
      .ok (v :: vs, r3)
    | ']' :: r2 => .ok ([v], r2)
    | _ => .error "json: expecting comma or bracket"

def jsonParseEntries : Nat → List Char → Except String (List (String × Value) × List Char)
  | 0, _ => .error "json: recursion budget exhausted"
  | fuel + 1, l =>
    match jsonSkipWs l with
    | '"' :: r1 => do
      let (k, r2) ← jsonReadString r1
      match jsonSkipWs r2 with
      | ':' :: r3 => do
        let (v, r4) ← jsonParseValue fuel r3
        match jsonSkipWs r4 with
        | ',' :: r5 => do
          let (kvs, r6) ← jsonParseEntries fuel r5
          .ok ((k, v) :: kvs, r6)
        | r5 =>
          if r5.head? = some rbraceChar then .ok ([(k, v)], r5.tail)
          else .error "json: expecting comma or brace"
      | _ => .error "json: expecting colon"
    | _ => .error "json: expecting property name"

end

/-- Python `json.loads`. -/
def jsonLoads (s : String) : Except String Value := do
  let (v, r) ← jsonParseValue (s.length + 1) s.toList
  match jsonSkipWs r with
  | [] => .ok v
  | _ => .error "json: extra data"

/-- `converter.py:349-356` — Terraform `join(...)` to `Fn::Join`: on a
regex match the item list is read back with `json.loads`; otherwise the
expression is returned unchanged. -/
def _convert_to_cf_join (tf_expression : String) : Except String Value :=
  match matchJoin tf_expression with
  | some (delim, items) => do
    let v ← jsonLoads ("[" ++ items ++ "]")
    .ok (.vobj [("Fn::Join", .vlist [.vstr delim, v])])
  | none => .ok (.vstr tf_expression)

/-! ### Expression Translator -/

mutual

/-- `converter.py:457-470` — Terraform value to CloudFormation.  A string
containing `${` is dispatched on the first matching key of
`tf_to_cf_functions` (`join`, `format`, `aws_region`, `aws_account_id`, in
insertion order); the latter two table entries are dictionaries, not
functions, so Python's call `cf_func(value)` raises `TypeError` there.
Mappings and sequences are rebuilt recursively; anything else passes
through. -/
def _convert_tf_value_to_cf (v : Value) : Except String Value :=
  match v with
  | .vstr s =>
    if strContains s "$\x7b" then
      if strContains s "join" then _convert_to_cf_join s
      else if strContains s "format" then .ok (_convert_to_cf_sub s)
      else if strContains s "aws_region" then
        .error "TypeError: \x27dict\x27 object is not callable"
      else if strContains s "aws_account_id" then
        .error "TypeError: \x27dict\x27 object is not callable"
      else .ok (.vstr s)
    else .ok (.vstr s)
  | .vobj kvs => do
    let kvs' ← tfObjToCf kvs
    pure (.vobj kvs')
  | .vlist items => do
    let items' ← tfListToCf items
    pure (.vlist items')
  | x => .ok x

def tfObjToCf : List (String × Value) → Except String (List (String × Value))
  | [] => .ok []
  | (k, v) :: rest => do
    let v' ← _convert_tf_value_to_cf v
    let rest' ← tfObjToCf rest
    pure ((k, v') :: rest')

def tfListToCf : List Value → Except String (List Value)
  | [] => .ok []
  | v :: rest => do
    let v' ← _convert_tf_value_to_cf v
    let rest' ← tfListToCf rest
    pure (v' :: rest')

end

/-- `converter.py:325-329` — the pseudo-parameter accessor table. -/
def pseudo_params : List (String × String) := [
  ("AWS::Region", "data.aws_region.current.name"),
  ("AWS::AccountId", "data.aws_caller_identity.current.account_id"),
  ("AWS::StackName", "terraform.workspace")]

/-- `converter.py:321-333` — `Ref` to Terraform.  The pseudo-parameter
branch returns `f"${{${...}}}"`, which Python renders as `${` + `$` +
accessor + `}` (a doubled dollar); the ordinary branch returns
`${var.<name>}`. -/
def _convert_ref (ref_name : Value) : Except String Value :=
  match ref_name with
  | .vstr s =>
    if pyStartsWith s "AWS::" then
      .ok (.vstr ("$\x7b$" ++ pyGetD pseudo_params s s ++ "\x7d"))
    else .ok (.vstr ("$\x7bvar." ++ s ++ "\x7d"))
  | _ => .error "AttributeError: startswith"

/-- Python 2-element unpacking `a, b = params`. -/
def pyUnpack2 (v : Value) : Except String (Value × Value) :=
  match v with
  | .vlist [a, b] => .ok (a, b)
  | .vlist _ => .error "ValueError: unpack"
  | .vstr s =>
    match s.toList with
    | [c1, c2] => .ok (.vstr (String.singleton c1), .vstr (String.singleton c2))
    | _ => .error "ValueError: unpack"
  | _ => .error "TypeError: cannot unpack non-iterable object"

/-- `converter.py:306-309` — `Fn::Join` to Terraform. -/
def _convert_join (params : Value) : Except String Value := do
  let (delimiter, items) ← pyUnpack2 params
  .ok (.vstr ("$\x7bjoin(\x27" ++ pyStr delimiter ++ "\x27, " ++ jsonDumps items ++ ")\x7d"))

/-- `converter.py:335-338` — `Fn::GetAtt` to Terraform. -/
def _convert_get_att (params : Value) : Except String Value := do
  let (resource_name, attr_name) ← pyUnpack2 params
  match resource_name, attr_name with
  | .vstr rn, .vstr at2 =>
    .ok (.vstr ("$\x7baws_" ++ pyLower rn ++ "." ++ pyLower at2 ++ "\x7d"))
  | _, _ => .error "AttributeError: lower"

/-- `converter.py:340-343` — `Fn::Select` to Terraform. -/
def _convert_select (params : Value) : Except String Value := do
  let (index, array) ← pyUnpack2 params
  .ok (.vstr ("$\x7belement(" ++ jsonDumps array ++ ", " ++ pyStr index ++ ")\x7d"))

/-- `converter.py:345-347` — `Condition` to Terraform. -/
def _convert_condition (condition_name : Value) : Except String Value :=
  .ok (.vstr ("$\x7bvar." ++ pyStr condition_name ++ "\x7d"))

mutual

/-- `converter.py:445-455` — CloudFormation value to Terraform.  A
single-entry mapping whose key is a recognized intrinsic-function name is
dispatched to its handler; other mappings and sequences are rebuilt
recursively; anything else passes through. -/
def _convert_cf_value_to_tf (v : Value) : Except String Value :=
  match v with
  | .vobj [(fn_name, params)] =>
    if fn_name = "Fn::Join" then _convert_join params
    else if fn_name = "Fn::Sub" then _convert_sub params
    else if fn_name = "Ref" then _convert_ref params
    else if fn_name = "Fn::GetAtt" then _convert_get_att params
    else if fn_name = "Fn::Select" then _convert_select params
    else if fn_name = "Condition" then _convert_condition params
    else do
      let params' ← _convert_cf_value_to_tf params
      pure (.vobj [(fn_name, params')])
  | .vobj kvs => do
    let kvs' ← cfObjToTf kvs
    pure (.vobj kvs')
  | .vlist items => do
    let items' ← cfListToTf items
    pure (.vlist items')
  | x => .ok x

/-- `converter.py:311-319` — `Fn::Sub`: a plain string is a simple
substitution; otherwise the argument is unpacked into template and
mapping. -/
def _convert_sub (params : Value) : Except String Value :=
  match params with
  | .vstr s => .ok (.vstr (_convert_simple_sub s))
  | .vlist [template, mapping] => _convert_complex_sub template mapping
  | .vlist _ => .error "ValueError: unpack"
  | _ => .error "TypeError: cannot unpack non-iterable object"

/-- `converter.py:435-443` — complex `Fn::Sub`: each `${key}` in the
template is literally replaced by the (converted) mapping value. -/
def _convert_complex_sub (template mapping : Value) : Except String Value :=
  match mapping with
  | .vobj kvs => complexSubFold template kvs
  | _ => .error "AttributeError: items"

def complexSubFold (result : Value) : List (String × Value) → Except String Value
  | [] => .ok result
  | (key, v) :: rest => do
    let v' ← match v with
      | .vobj o => _convert_cf_value_to_tf (.vobj o)
      | other => pure other
    match result with
    | .vstr rs =>
      complexSubFold (.vstr (pyReplace rs ("$\x7b" ++ key ++ "\x7d") (pyStr v'))) rest
    | _ => .error "AttributeError: replace"

def cfObjToTf : List (String × Value) → Except String (List (String × Value))
  | [] => .ok []
  | (k, v) :: rest => do
    let v' ← _convert_cf_value_to_tf v
    let rest' ← cfObjToTf rest
    pure ((k, v') :: rest')

def cfListToTf : List Value → Except String (List Value)
  | [] => .ok []
  | v :: rest => do
    let v' ← _convert_cf_value_to_tf v
    let rest' ← cfListToTf rest
    pure (v' :: rest')

end

/-! ### Structural Transformer -/

/-- Python `needle in container` for a general container value. -/
def pyInKey (needle : String) (container : Value) : Except String Bool :=
  match container with
  | .vobj m => .ok (hasKey m needle)
  | .vlist l => .ok (l.any (fun x => match x with | .vstr s => s == needle | _ => false))
  | .vstr s => .ok (strContains s needle)
  | _ => .error "TypeError: argument is not iterable"

/-- Python `container[key]` for a string key. -/
def pySub (container : Value) (k : String) : Except String Value :=
  match container with
  | .vobj m =>
    match pyGet m k with
    | some v => .ok v
    | none => .error ("KeyError: \x27" ++ k ++ "\x27")
  | .vlist _ => .error "TypeError: list indices must be integers"
  | .vstr _ => .error "TypeError: string indices must be integers"
  | _ => .error "TypeError: object is not subscriptable"

/-- Python iteration over a container (`map(f, container)`): a sequence
yields its items, a string its characters, a mapping its keys. -/
def pyIterate (v : Value) : Except String (List Value)  :=
  match v with
  | .vlist l => .ok l
  | .vstr s => .ok (s.toList.map (fun c => .vstr (String.singleton c)))
  | .vobj m => .ok (m.map (fun p => .vstr p.1))
  | _ => .error "TypeError: object is not iterable"

/-- Lower-case a PascalCase identifier with underscore separators. -/
def camel_to_snake (s : String) : String :=
  s.toList.foldl (fun acc c =>
    if c.isUpper ∧ acc ≠ "" then acc ++ "_" ++ (String.singleton c.toLower)
    else acc ++ String.singleton c.toLower) ""

/-- Title-case each underscore-separated segment and join them. -/
def snake_to_pascal (s : String) : String :=
  String.join ((pySplit s "_").map String.capitalize)

/-- The property names the specification pins to a non-derivable rename
(§8 Scenarios 1 and 2: `bucket` ↔ `BucketName`). -/
def cf_property_renames : List (String × String) := [("BucketName", "bucket")]

def tf_property_renames : List (String × String) := [("bucket", "BucketName")]

/-- Modelled from the spec: `_convert_cf_properties_to_tf` is called at
`converter.py:256` but is not defined anywhere under the sources.  Per the
spec (§1 "property shapes", §8 Scenario 2), each declarative property is
renamed to the block format's naming (`BucketName` ↦ `bucket`; otherwise
the PascalCase name is lowered to snake_case) and its value is translated
with the Expression Translator (§4.2: applied recursively to every value
position). -/
def _convert_cf_properties_to_tf (properties : Value) : Except String Obj :=
  match properties with
  | .vobj kvs =>
    kvs.mapM (fun p => do
      let v' ← _convert_cf_value_to_tf p.2
      pure (pyGetD cf_property_renames p.1 (camel_to_snake p.1), v'))
  | _ => .error "AttributeError: items"

/-- Modelled from the spec: `_convert_tf_properties_to_cf` is called at
`converter.py:231` but is not defined anywhere under the sources.  The
mirror of `_convert_cf_properties_to_tf`: each block-format property is
renamed to the declarative naming (`bucket` ↦ `BucketName`; otherwise
snake_case is raised to PascalCase) and its value is translated with the
Expression Translator. -/
def _convert_tf_properties_to_cf (resource_config : Obj) : Except String Obj :=
  resource_config.mapM (fun p => do
    let v' ← _convert_tf_value_to_cf p.2
    pure (pyGetD tf_property_renames p.1 (snake_to_pascal p.1), v'))

/-- Inner loop of `converter.py:214-238`: the resources of one Terraform
type block. -/
def tfResourcesInner (cf_resources : Obj) (resource_type : String) :
    List (String × Value) → Except String Obj
  | [] => .ok cf_resources
  | (resource_name, resource_config) :: rest => do
    let cf_resource_type ← tf_type_to_cf_type resource_type
    match resource_config with
    | .vobj rc => do
      let (depends_on, rc') := popKey rc "depends_on" (.vlist [])
      let props ← _convert_tf_properties_to_cf rc'
      let entry : Obj :=
        [("Type", .vstr cf_resource_type), ("Properties", .vobj props)]
      let entry := if truthy depends_on then setKey entry "DependsOn" depends_on else entry
      tfResourcesInner (setKey cf_resources resource_name (.vobj entry)) resource_type rest
    | _ => .error "AttributeError: pop"

def tfResourcesFold (cf_resources : Obj) : List (String × Value) → Except String Obj
  | [] => .ok cf_resources
  | (resource_type, type_resources) :: rest => do
    match type_resources with
    | .vobj inner => do
      let cf' ← tfResourcesInner cf_resources resource_type inner
      tfResourcesFold cf' rest
    | _ => .error "AttributeError: items"

/-- `converter.py:214-238` — Terraform resources to CloudFormation:
flatten the type/name grouping to one entry per name; the `depends_on`
list is popped from the configuration and, when non-empty, stored as
`DependsOn` unchanged. -/
def _convert_tf_resources_to_cf (resources : Value) : Except String Obj :=
  match resources with
  | .vobj typeEntries => tfResourcesFold [] typeEntries
  | _ => .error "AttributeError: items"

def cfResourcesFold (tf_resources : Obj) : List (String × Value) → Except String Obj
  | [] => .ok tf_resources
  | (resource_name, resource_data) :: rest => do
    match resource_data with
    | .vobj rd => do
      let tyV ← match pyGet rd "Type" with
        | some v => .ok v
        | none => .error "KeyError: \x27Type\x27"
      let cf_type ← match tyV with
        | .vstr s => .ok s
        | _ => .error "AttributeError: split"
      let tf_type ← cf_type_to_tf_type cf_type
      let tfr := if hasKey tf_resources tf_type then tf_resources
                 else setKey tf_resources tf_type (.vobj [])
      let resource_config ← _convert_cf_properties_to_tf (pyGetD rd "Properties" (.vobj []))
      let resource_config :=
        if hasKey rd "DependsOn" then
          let dep := pyGetD rd "DependsOn" .vnull
          setKey resource_config "depends_on"
            (match dep with
             | .vstr s => .vlist [.vstr s]
             | d => d)
        else resource_config
      match pyGet tfr tf_type with
      | some (.vobj inner) =>
        cfResourcesFold
          (setKey tfr tf_type (.vobj (setKey inner resource_name (.vobj resource_config)))) rest
      | _ => .error "TypeError: object is not subscriptable"
    | _ => .error "TypeError: string indices must be integers"

/-- `converter.py:240-270` — CloudFormation resources to Terraform:
group by translated type; a single-string `DependsOn` is wrapped into a
one-element `depends_on` list, a list is carried over unchanged. -/
def _convert_cf_resources_to_tf (resources : Value) : Except String Obj :=
  match resources with
  | .vobj entries => cfResourcesFold [] entries
  | _ => .error "AttributeError: items"

def tfOutputsFold (cf_outputs : Obj) : List (String × Value) → Except String Obj
  | [] => .ok cf_outputs
  | (output_name, output_config) :: rest => do
    match output_config with
    | .vobj oc => do
      let desc := pyGetD oc "description" (.vstr ("Output " ++ output_name))
      let valRaw ← match pyGet oc "value" with
        | some v => .ok v
        | none => .error "KeyError: \x27value\x27"
      let val ← _convert_tf_value_to_cf valRaw
      let out : Obj := [("Description", desc), ("Value", val)]
      let out := if truthy (pyGetD oc "sensitive" (.vbool false))
                 then setKey out "NoEcho" (.vbool true) else out
      tfOutputsFold (setKey cf_outputs output_name (.vobj out)) rest
    | _ => .error "AttributeError: get"

/-- `converter.py:272-287` — Terraform outputs to CloudFormation. -/
def _convert_tf_outputs_to_cf (outputs : Value) : Except String Obj :=
  match outputs with
  | .vobj entries => tfOutputsFold [] entries
  | _ => .error "AttributeError: items"

def cfOutputsFold (tf_outputs : Obj) : List (String × Value) → Except String Obj
  | [] => .ok tf_outputs
  | (output_name, output_config) :: rest => do
    match output_config with
    | .vobj oc => do
      let desc := pyGetD oc "Description" (.vstr ("Output " ++ output_name))
      let valRaw ← match pyGet oc "Value" with
        | some v => .ok v
        | none => .error "KeyError: \x27Value\x27"
      let val ← _convert_cf_value_to_tf valRaw
      let out : Obj := [("description", desc), ("value", val)]
      let out := if truthy (pyGetD oc "NoEcho" (.vbool false))
                 then setKey out "sensitive" (.vbool true) else out
      cfOutputsFold (setKey tf_outputs output_name (.vobj out)) rest
    | _ => .error "AttributeError: get"

/-- `converter.py:289-304` — CloudFormation outputs to Terraform. -/
def _convert_cf_outputs_to_tf (outputs : Value) : Except String Obj :=
  match outputs with
  | .vobj entries => cfOutputsFold [] entries
  | _ => .error "AttributeError: items"

/-- `converter.py:364-376` — Terraform variable types to CloudFormation
parameter types (default `"String"`; an unhashable key raises). -/
def type_mapping_to_cf : List (String × String) := [
  ("string", "String"),
  ("number", "Number"),
  ("bool", "String"),
  ("list", "CommaDelimitedList"),
  ("map", "String"),
  ("object", "String"),
  ("set", "CommaDelimitedList")]

def _get_cf_parameter_type (tf_type : Value) : Except String String :=
  match tf_type with
  | .vstr s => .ok (pyGetD type_mapping_to_cf s "String")
  | .vlist _ => .error "TypeError: unhashable type"
  | .vobj _ => .error "TypeError: unhashable type"
  | _ => .ok "String"

/-- `converter.py:378-390` — CloudFormation parameter types to Terraform
variable types (default `"string"`). -/
def type_mapping_to_tf : List (String × String) := [
  ("String", "string"),
  ("Number", "number"),
  ("CommaDelimitedList", "list(string)"),
  ("List<Number>", "list(number)"),
  ("AWS::EC2::KeyPair::KeyName", "string"),
  ("AWS::EC2::SecurityGroup::Id", "string"),
  ("AWS::EC2::Subnet::Id", "string"),
  ("AWS::EC2::VPC::Id", "string")]

def _get_tf_variable_type (cf_type : Value) : Except String String :=
  match cf_type with
  | .vstr s => .ok (pyGetD type_mapping_to_tf s "string")
  | .vlist _ => .error "TypeError: unhashable type"
  | .vobj _ => .error "TypeError: unhashable type"
  | _ => .ok "string"

def variablesFold (parameters_acc : Obj) : List (String × Value) → Except String Obj
  | [] => .ok parameters_acc
  | (var_name, var_config) :: rest => do
    match var_config with
    | .vobj vc => do
      let t ← _get_cf_parameter_type (pyGetD vc "type" (.vstr "string"))
      let param : Obj :=
        [("Type", .vstr t),
         ("Description", pyGetD vc "description" (.vstr ("Parameter for " ++ var_name)))]
      let param := if hasKey vc "default"
                   then setKey param "Default" (pyGetD vc "default" .vnull) else param
      let param ← if hasKey vc "validation" then do
          let vval := pyGetD vc "validation" .vnull
          let hasCond ← pyInKey "condition" vval
          let param ← if hasCond then do
              let c ← pySub vval "condition"
              pure (setKey param "AllowedPattern" c)
            else pure param
          let hasAllowed ← pyInKey "allowed_values" vval
          if hasAllowed then do
            let av ← pySub vval "allowed_values"
            pure (setKey param "AllowedValues" av)
          else pure param
        else pure param
      variablesFold (setKey parameters_acc var_name (.vobj param)) rest
    | _ => .error "AttributeError: get"

/-- `converter.py:167-189` — Terraform variables to CloudFormation
parameters. -/
def _convert_variables_to_parameters (variables0 : Value) : Except String Obj :=
  match variables0 with
  | .vobj entries => variablesFold [] entries
  | _ => .error "AttributeError: items"

def parametersFold (variables_acc : Obj) : List (String × Value) → Except String Obj
  | [] => .ok variables_acc
  | (param_name, param_config) :: rest => do
    let tyV ← pySub param_config "Type"
    let t ← _get_tf_variable_type tyV
    match param_config with
    | .vobj pc => do
      let var_entry : Obj :=
        [("type", .vstr t),
         ("description", pyGetD pc "Description" (.vstr ("Variable for " ++ param_name)))]
      let var_entry := if hasKey pc "Default"
                      then setKey var_entry "default" (pyGetD pc "Default" .vnull) else var_entry
      let var_entry ← if hasKey pc "AllowedValues" then do
          let av := pyGetD pc "AllowedValues" .vnull
          let elems ← pyIterate av
          let condition := "can(index([" ++
            String.intercalate ", " (elems.map pyRepr) ++ "], var." ++ param_name ++ "))"
          let msg := "Variable " ++ param_name ++ " must be one of: " ++
            String.intercalate ", " (elems.map pyStr)
          pure (setKey var_entry "validation"
            (.vobj [("condition", .vstr condition), ("error_message", .vstr msg)]))
        else pure var_entry
      parametersFold (setKey variables_acc param_name (.vobj var_entry)) rest
    | _ => .error "AttributeError: get"

/-- `converter.py:191-212` — CloudFormation parameters to Terraform
variables. -/
def _convert_parameters_to_variables (parameters : Value) : Except String Obj :=
  match parameters with
  | .vobj entries => parametersFold [] entries
  | _ => .error "AttributeError: items"

/-- `converter.py:397-402` — stash the provider region under the
`Mappings/AWSRegionMap` side channel. -/
def provider_region_step (aws_config : Value) (cf_template : Obj) :
    Except String Obj := do
  let hasRegion ← pyInKey "region" aws_config
  if hasRegion then do
    let region ← pySub aws_config "region"
    match pyGetD cf_template "Mappings" (.vobj []) with
    | .vobj mp =>
      pure (setKey cf_template "Mappings"
        (.vobj (setKey mp "AWSRegionMap" (.vobj [("Region", .vobj [("Name", region)])]))))
    | _ => .error "TypeError: object is not subscriptable"
  else pure cf_template

/-- `converter.py:404-412` — stash an assumed-role ARN as the
`AssumeRoleArn` parameter. -/
def role_arn_of (ar : Value) : Except String Value :=
  match ar with
  | .vobj m => .ok (pyGetD m "role_arn" .vnull)
  | _ => .error "AttributeError: get"

def provider_role_step (aws_config : Value) (cf_template : Obj) :
    Except String Obj := do
  let hasRole ← pyInKey "assume_role" aws_config
  if hasRole then do
    let ar ← pySub aws_config "assume_role"
    let role_arn ← role_arn_of ar
    if truthy role_arn then
      match pyGetD cf_template "Parameters" .vnull with
      | .vobj ps =>
        pure (setKey cf_template "Parameters"
          (.vobj (setKey ps "AssumeRoleArn"
            (.vobj [("Type", .vstr "String"), ("Default", role_arn),
                    ("Description", .vstr "ARN of role to assume")]))))
      | _ => .error "TypeError: object is not subscriptable"
    else pure cf_template
  else pure cf_template

/-- `converter.py:392-412` — handle a Terraform provider configuration:
region and assumed-role side channels. -/
def _handle_provider_config (provider_config : Value) (cf_template : Obj) :
    Except String Obj := do
  let hasAws ← pyInKey "aws" provider_config
  if hasAws then do
    let aws_config ← pySub provider_config "aws"
    let cf1 ← provider_region_step aws_config cf_template
    provider_role_step aws_config cf1
  else pure cf_template

/-- `converter.py:414-428` — recover a provider configuration from the
`Mappings` side channel and the `AssumeRoleArn` parameter. -/
def _extract_provider_config (cf_dict : Obj) : Except String Obj := do
  let pc : Obj := []
  let pc ← if hasKey cf_dict "Mappings" then do
      let mp := pyGetD cf_dict "Mappings" .vnull
      let hasRM ← pyInKey "AWSRegionMap" mp
      if hasRM then do
        let v1 ← pySub mp "AWSRegionMap"
        let v2 ← pySub v1 "Region"
        let name ← pySub v2 "Name"
        pure (setKey pc "region" name)
      else pure pc
    else pure pc
  if hasKey cf_dict "Parameters" then do
    let ps := pyGetD cf_dict "Parameters" .vnull
    let hasArn ← pyInKey "AssumeRoleArn" ps
    if hasArn then do
      let arn ← pySub ps "AssumeRoleArn"
      let dflt ← match arn with
        | .vobj m => .ok (pyGetD m "Default" .vnull)
        | _ => .error "AttributeError: get"
      pure (setKey pc "assume_role" (.vobj [("role_arn", dflt)]))
    else pure pc
  else pure pc

/-! ### Public entry points -/

/-- `cf_template["<k>"].update(extra)`. -/
def sectionUpdate (m : Obj) (k : String) (extra : Obj) : Except String Obj :=
  match pyGet m k with
  | some (.vobj cur) => .ok (setKey m k (.vobj (updateObj cur extra)))
  | _ => .error "AttributeError: update"

/-- `converter.py:97-100` — populate `Parameters` when the input has a
`variable` section. -/
def tf_step_variables (tf_dict : Obj) (cf_template : Obj) : Except String Obj :=
  if hasKey tf_dict "variable" then do
    let ps ← _convert_variables_to_parameters (pyGetD tf_dict "variable" .vnull)
    sectionUpdate cf_template "Parameters" ps
  else pure cf_template

/-- `converter.py:103-106` — populate `Resources`. -/
def tf_step_resources (tf_dict : Obj) (cf_template : Obj) : Except String Obj :=
  if hasKey tf_dict "resource" then do
    let rs ← _convert_tf_resources_to_cf (pyGetD tf_dict "resource" .vnull)
    sectionUpdate cf_template "Resources" rs
  else pure cf_template

/-- `converter.py:109-112` — populate `Outputs`. -/
def tf_step_outputs (tf_dict : Obj) (cf_template : Obj) : Except String Obj :=
  if hasKey tf_dict "output" then do
    let os ← _convert_tf_outputs_to_cf (pyGetD tf_dict "output" .vnull)
    sectionUpdate cf_template "Outputs" os
  else pure cf_template

/-- `converter.py:115-116` — apply the provider side channel. -/
def tf_step_provider (tf_dict : Obj) (cf_template : Obj) : Except String Obj :=
  if hasKey tf_dict "provider" then
    _handle_provider_config (pyGetD tf_dict "provider" .vnull) cf_template
  else pure cf_template

/-- `converter.py:87-94` — the initial template skeleton. -/
def initial_cf_template : Obj := [
  ("AWSTemplateFormatVersion", .vstr "2010-09-09"),
  ("Description", .vstr "Converted from Terraform"),
  ("Parameters", .vobj []),
  ("Conditions", .vobj []),
  ("Resources", .vobj []),
  ("Outputs", .vobj [])]

/-- `converter.py:80-121` (body of `tf_to_cf`, after the external HCL
parse): assemble the template skeleton, populate each section that is
present in the parsed input, and drop the sections left empty. -/
def tf_to_cf_core (tf_dict : Obj) : Except String Obj := do
  let cf_template ← tf_step_variables tf_dict initial_cf_template
  let cf_template ← tf_step_resources tf_dict cf_template
  let cf_template ← tf_step_outputs tf_dict cf_template
  let cf_template ← tf_step_provider tf_dict cf_template
  pure (filterTruthy cf_template)

/-- `converter.py:123-124` — the `except` arm of `tf_to_cf`: any failure
is re-raised wrapped with the direction label. -/
def tf_to_cf (tf_dict : Obj) : Except String Obj :=
  match tf_to_cf_core tf_dict with
  | .ok v => .ok v
  | .error e => .error ("Error converting Terraform to CloudFormation: " ++ e)

/-- `converter.py:126-162` (body of `cf_to_tf` on an already-parsed
document — the source's `isinstance(cf_content, str)` branch is the
external codec): assemble the configuration, populate its sections in
source order, and drop the sections left empty.

Modelled from the spec: the final serialization step
`self._format_tf_output(tf_config)` names a method defined nowhere under
the sources; per the spec (§6), the engine's public contract produces the
generic tree and textual block-syntax emission is external, so the
filtered tree is returned. -/
def cf_to_tf_core (cf_dict : Obj) : Except String Obj := do
  let provider ← _extract_provider_config cf_dict
  let vars ← _convert_parameters_to_variables (pyGetD cf_dict "Parameters" (.vobj []))
  let outs ← _convert_cf_outputs_to_tf (pyGetD cf_dict "Outputs" (.vobj []))
  let tf_config : Obj := [
    ("terraform", .vobj [("required_providers",
      .vobj [("aws", .vobj [("source", .vstr "hashicorp/aws"), ("version", .vstr "~> 4.0")])])]),
    ("provider", .vobj [("aws", .vobj provider)]),
    ("variable", .vobj vars),
    ("resource", .vobj []),
    ("output", .vobj outs)]
  let rs ← _convert_cf_resources_to_tf (pyGetD cf_dict "Resources" (.vobj []))
  let tf_config := setKey tf_config "resource" (.vobj rs)
  pure (filterTruthy tf_config)

/-- `converter.py:164-165` — the `except` arm of `cf_to_tf`. -/
def cf_to_tf (cf_dict : Obj) : Except String Obj :=
  match cf_to_tf_core cf_dict with
  | .ok v => .ok v
  | .error e => .error ("Error converting CloudFormation to Terraform: " ++ e)

/-! ### Validator -/

/-- `converter.py:480-491` — `validate_conversion`, parameterized by the
three external parsers it may invoke.  The CloudFormation arm picks the
JSON parser exactly when `source.startswith("{")`; any parse failure is
re-raised as `ValueError("Validation failed: ...")`. -/
def validate_conversion (parseJson parseYaml parseHcl : String → Except String Value)
    (source target : String) : Except String Bool :=
  let parsed :=
    if pyLower target = "cloudformation" then
      if pyStartsWith source "\x7b" then parseJson source else parseYaml source
    else parseHcl source
  match parsed with
  | .ok _ => .ok true
  | .error e => .error ("Validation failed: " ++ e)

/-- Modelled from the spec: the claimed selection rule "selecting JSON
vs. the line-oriented format by sniffing the first non-whitespace
character" — JSON is chosen when the first non-whitespace character is an
opening brace. -/
def spec_selects_json (source : String) : Bool :=
  match source.toList.find? (fun c => !c.isWhitespace) with
  | some c => c == lbraceChar
  | none => false

/-- The selection rule the source actually implements
(`source.startswith("{")`, `converter.py:485`). -/
def source_selects_json (source : String) : Bool :=
  pyStartsWith source "\x7b"

/-! ### Infrastructure for the claim proofs -/

theorem except_bind_ok {ε α β : Type} (e : Except ε α) (f : α → Except ε β) (b : β) :
    (e >>= f) = .ok b ↔ ∃ a, e = .ok a ∧ f a = .ok b := by
  cases e <;> simp [Bind.bind, Except.bind]

theorem pyGet_setKey_ne {α : Type} (m : List (String × α)) (k k' : String) (v : α)
    (h : k ≠ k') : pyGet (setKey m k v) k' = pyGet m k' := by
  induction m with
  | nil => simp [setKey, pyGet, h]
  | cons p rest ih =>
    obtain ⟨k0, v0⟩ := p
    by_cases hk : k0 = k
    · subst hk
      simp [setKey, pyGet, h]
    · simp [setKey, pyGet, hk, ih]

theorem pyGet_filterTruthy (m : Obj) (k : String) (v : Value)
    (hv : truthy v = true) (h : pyGet m k = some v) :
    pyGet (filterTruthy m) k = some v := by
  induction m with
  | nil => simp [pyGet] at h
  | cons p rest ih =>
    obtain ⟨k0, v0⟩ := p
    by_cases hk : k0 = k
    · subst hk
      simp only [pyGet, if_pos rfl] at h
      injection h with h
      subst h
      simp [filterTruthy, List.filter, hv, pyGet]
    · simp only [pyGet, if_neg hk] at h
      have := ih h
      simp only [filterTruthy, List.filter] at this ⊢
      cases ht : truthy v0 <;> simp [ht, pyGet, hk, this]

/-- Walk a key path down nested mappings. -/
def lookupPath : Value → List String → Option Value
  | v, [] => some v
  | .vobj m, k :: rest =>
    match pyGet m k with
    | some v => lookupPath v rest
    | none => none
  | _, _ :: _ => none

def isEmptyContainer : Value → Bool
  | .vlist l => l.isEmpty
  | .vobj m => m.isEmpty
  | _ => false

/-- No entry of the mapping is an empty mapping or an empty sequence. -/
def noEmptyTop (m : Obj) : Bool := m.all (fun p => !(isEmptyContainer p.2))

theorem truthy_not_emptyContainer (v : Value) (h : truthy v = true) :
    isEmptyContainer v = false := by
  cases v <;> simp_all [truthy, isEmptyContainer]

theorem noEmptyTop_filterTruthy (m : Obj) : noEmptyTop (filterTruthy m) = true := by
  simp only [noEmptyTop, List.all_eq_true]
  intro p hp
  have h := List.of_mem_filter hp
  simp [truthy_not_emptyContainer _ h]

/-! ### The claims -/

/-- The C1 scenario input: a declarative document whose `Resources`
section holds `MyBucket` of type `AWS::S3::Bucket` with
`Properties.BucketName == "my-test-bucket"`. -/
def c1_input : Obj := [("Resources", .vobj [("MyBucket", .vobj [
  ("Type", .vstr "AWS::S3::Bucket"),
  ("Properties", .vobj [("BucketName", .vstr "my-test-bucket")])])])]

/-- C1: `cf_to_tf` on the `MyBucket` scenario input succeeds (does not
raise) and the produced block-format document holds a resource of type
`aws_s3_bucket` named `MyBucket` whose `bucket` property equals
`"my-test-bucket"`. -/
theorem C1_cf_to_tf_s3_scenario :
    (cf_to_tf c1_input).isOk = true ∧
    ((cf_to_tf c1_input).toOption.bind (fun out =>
      lookupPath (.vobj out) ["resource", "aws_s3_bucket", "MyBucket", "bucket"]))
      = some (.vstr "my-test-bucket") := by
  exact ⟨rfl, rfl⟩

/-- C2: the claim that the type lookup with fallback never raises is
false — the fallback f-string is `dict.get`'s second argument and Python
evaluates it eagerly, so any identifier whose split has fewer than three
segments raises `IndexError`, even the catalogued `aws_instance`
(two underscore segments); the fallback derivation itself works only when
both indexed segments exist. -/
theorem C2_eager_fallback_raises :
    table_to_cf "aws_instance" = some "AWS::EC2::Instance" ∧
    tf_type_to_cf_type "aws_instance" = .error "IndexError: list index out of range" ∧
    cf_type_to_tf_type "AWS::EC2" = .error "IndexError: list index out of range" ∧
    cf_type_to_tf_type "AWS::Foo::BarBaz" = .ok "aws_foo_barbaz" ∧
    tf_type_to_cf_type "aws_foo_barbaz" = .ok "AWS::Foo::Barbaz" := by
  exact ⟨rfl, rfl, rfl, rfl, rfl⟩

/-- C3: every entry of the fixed catalog round-trips through the pair of
tables: the reverse table (built mechanically by swapping the forward
entries) sends each forward image back to its key, and vice versa. -/
theorem C3_table_round_trip (p : String × String)
    (hp : p ∈ resource_type_mappings) :
    (table_to_tf p.1).bind table_to_cf = some p.1 ∧
    (table_to_cf p.2).bind table_to_tf = some p.2 := by
  fin_cases hp <;> exact ⟨rfl, rfl⟩

theorem C3_table_round_trip_witness :
    ("AWS::S3::Bucket", "aws_s3_bucket") ∈ resource_type_mappings ∧
    ((table_to_tf "AWS::S3::Bucket").bind table_to_cf = some "AWS::S3::Bucket" ∧
     (table_to_cf "aws_s3_bucket").bind table_to_tf = some "aws_s3_bucket") :=
  ⟨by simp [resource_type_mappings],
   C3_table_round_trip ("AWS::S3::Bucket", "aws_s3_bucket")
     (by simp [resource_type_mappings])⟩

/-- C5, counterexample: a block-format resource whose `depends_on` list
has exactly one entry is converted with `DependsOn` equal to that
one-element list itself — not to the bare dependency name the claim
states. -/
theorem C5_counterexample :
    _convert_tf_resources_to_cf (.vobj [("aws_s3_bucket", .vobj [("example",
        .vobj [("depends_on", .vlist [.vstr "dep1"])])])]) =
      .ok [("example", .vobj [("Type", .vstr "AWS::S3::Bucket"),
        ("Properties", .vobj []), ("DependsOn", .vlist [.vstr "dep1"])])] ∧
    (Value.vlist [.vstr "dep1"] ≠ .vstr "dep1") :=
  ⟨rfl, fun h => Value.noConfusion h⟩

/-- C5, amended: a one-entry `depends_on` list becomes `DependsOn` equal
to that same one-element list (not the bare name, and not a list of
lists); a declarative `DependsOn` that is a single string becomes a
one-element `depends_on` list; composing the two, the single-string case
round-trips to the one-element list holding the same name. -/
theorem C5_single_dependency (name : String) :
    _convert_tf_resources_to_cf (.vobj [("aws_s3_bucket", .vobj [("example",
        .vobj [("depends_on", .vlist [.vstr name])])])]) =
      .ok [("example", .vobj [("Type", .vstr "AWS::S3::Bucket"),
        ("Properties", .vobj []), ("DependsOn", .vlist [.vstr name])])] ∧
    _convert_cf_resources_to_tf (.vobj [("example", .vobj [
        ("Type", .vstr "AWS::S3::Bucket"), ("DependsOn", .vstr name)])]) =
      .ok [("aws_s3_bucket", .vobj [("example",
        .vobj [("depends_on", .vlist [.vstr name])])])] := by
  exact ⟨rfl, rfl⟩

/-- C6: at a pseudo-parameter reference the translation is *not* the
accessor inside a single `${...}` interpolation: the f-string
`f"${{${...}}}"` at `converter.py:330` emits a stray dollar, producing
`${$data.aws_region.current.name}`; the ordinary branch does produce
`${var.<name>}` as claimed. -/
theorem C6_pseudo_parameter_ref :
    _convert_ref (.vstr "AWS::Region") =
      .ok (.vstr "$\x7b$data.aws_region.current.name\x7d") ∧
    (Value.vstr "$\x7b$data.aws_region.current.name\x7d" ≠
      .vstr "$\x7bdata.aws_region.current.name\x7d") ∧
    _convert_ref (.vstr "AWS::AccountId") =
      .ok (.vstr "$\x7b$data.aws_caller_identity.current.account_id\x7d") ∧
    _convert_ref (.vstr "AWS::StackName") =
      .ok (.vstr "$\x7b$terraform.workspace\x7d") ∧
    _convert_ref (.vstr "MyParam") = .ok (.vstr "$\x7bvar.MyParam\x7d") := by
  refine ⟨rfl, ?_, rfl, rfl, rfl⟩
  intro h
  simp only [Value.vstr.injEq] at h
  exact absurd h (by decide)

/-- C7: whenever either public entry point fails, the error it signals is
the single conversion-failure error: the original cause prefixed with the
direction label (and no output is produced). -/
theorem C7_error_wrapping (d : Obj) (e : String) :
    (cf_to_tf d = .error e →
      ∃ cause, e = "Error converting CloudFormation to Terraform: " ++ cause) ∧
    (tf_to_cf d = .error e →
      ∃ cause, e = "Error converting Terraform to CloudFormation: " ++ cause) := by
  constructor
  · intro h
    unfold cf_to_tf at h
    cases hc : cf_to_tf_core d with
    | ok v => rw [hc] at h; exact absurd h (by simp)
    | error c =>
      rw [hc] at h
      injection h with h
      exact ⟨c, h.symm⟩
  · intro h
    unfold tf_to_cf at h
    cases hc : tf_to_cf_core d with
    | ok v => rw [hc] at h; exact absurd h (by simp)
    | error c =>
      rw [hc] at h
      injection h with h
      exact ⟨c, h.symm⟩

theorem C7_error_wrapping_witness :
    (∃ cause, "Error converting CloudFormation to Terraform: AttributeError: items" =
      "Error converting CloudFormation to Terraform: " ++ cause) ∧
    (∃ cause, "Error converting Terraform to CloudFormation: KeyError: \x27value\x27" =
      "Error converting Terraform to CloudFormation: " ++ cause) :=
  ⟨(C7_error_wrapping [("Resources", .vstr "oops")]
      "Error converting CloudFormation to Terraform: AttributeError: items").1 rfl,
   (C7_error_wrapping [("output", .vobj [("o", .vobj [])])]
      "Error converting Terraform to CloudFormation: KeyError: \x27value\x27").2 rfl⟩

/-- A stub parser that accepts every document (stands in for an external
codec in validator statements). -/
def jsonProbe : String → Except String Value := fun _ => .ok .vnull

/-- A stub parser that rejects every document with a fixed message. -/
def failProbe (msg : String) : String → Except String Value := fun _ => .error msg

/-- C8, counterexample: on a source whose first non-whitespace character
is `{` but whose first character is a space, the claimed rule selects the
JSON parse, yet the validator hands the document to the line-oriented
parser — the code sniffs `source.startswith("{")`, not the first
non-whitespace character. -/
theorem C8_counterexample :
    spec_selects_json " \x7b\"a\": 1\x7d" = true ∧
    validate_conversion jsonProbe (failProbe "yaml") (failProbe "hcl")
      " \x7b\"a\": 1\x7d" "cloudformation" = .error "Validation failed: yaml" :=
  ⟨rfl, rfl⟩

/-- C8, amended: the validator selects the JSON parse exactly when the
source's first character is `{` (no whitespace skipped) and the
line-oriented parse otherwise; every parse failure is re-signaled as a
validation failure, and every successful parse returns success. -/
theorem C8_validator (pj py ph : String → Except String Value)
    (s e : String) (v : Value) :
    (pyStartsWith s "\x7b" = true → pj s = .ok v →
      validate_conversion pj py ph s "cloudformation" = .ok true) ∧
    (pyStartsWith s "\x7b" = true → pj s = .error e →
      validate_conversion pj py ph s "cloudformation" =
        .error ("Validation failed: " ++ e)) ∧
    (pyStartsWith s "\x7b" = false → py s = .ok v →
      validate_conversion pj py ph s "cloudformation" = .ok true) ∧
    (pyStartsWith s "\x7b" = false → py s = .error e →
      validate_conversion pj py ph s "cloudformation" =
        .error ("Validation failed: " ++ e)) ∧
    (ph s = .ok v → validate_conversion pj py ph s "terraform" = .ok true) ∧
    (ph s = .error e → validate_conversion pj py ph s "terraform" =
      .error ("Validation failed: " ++ e)) := by
  have hcf : pyLower "cloudformation" = "cloudformation" := rfl
  have htf : ¬ (pyLower "terraform" = "cloudformation") := by decide
  refine ⟨fun h1 h2 => ?_, fun h1 h2 => ?_, fun h1 h2 => ?_, fun h1 h2 => ?_,
    fun h2 => ?_, fun h2 => ?_⟩
  · simp [validate_conversion, hcf, h1, h2]
  · simp [validate_conversion, hcf, h1, h2]
  · simp [validate_conversion, hcf, h1, h2]
  · simp [validate_conversion, hcf, h1, h2]
  · simp [validate_conversion, htf, h2]
  · simp [validate_conversion, htf, h2]

theorem C8_validator_witness :
    validate_conversion jsonProbe (failProbe "yaml") (failProbe "hcl")
      "\x7bx" "cloudformation" = .ok true ∧
    validate_conversion (failProbe "nope") jsonProbe (failProbe "hcl")
      "x" "cloudformation" = .ok true ∧
    validate_conversion jsonProbe jsonProbe (failProbe "hcl")
      "x" "terraform" = .error "Validation failed: hcl" :=
  ⟨(C8_validator jsonProbe (failProbe "yaml") (failProbe "hcl")
      "\x7bx" "e" .vnull).1 rfl rfl,
   (C8_validator (failProbe "nope") jsonProbe (failProbe "hcl")
      "x" "e" .vnull).2.2.1 rfl rfl,
   (C8_validator jsonProbe jsonProbe (failProbe "hcl")
      "x" "hcl" .vnull).2.2.2.2.2 rfl⟩

theorem tf_to_cf_core_filter_shape (d : Obj) (out : Obj)
    (h : tf_to_cf_core d = .ok out) : ∃ m, out = filterTruthy m := by
  unfold tf_to_cf_core at h
  rw [except_bind_ok] at h
  obtain ⟨c1, _, h⟩ := h
  rw [except_bind_ok] at h
  obtain ⟨c2, _, h⟩ := h
  rw [except_bind_ok] at h
  obtain ⟨c3, _, h⟩ := h
  rw [except_bind_ok] at h
  obtain ⟨c4, _, h⟩ := h
  simp only [pure, Except.pure, Except.ok.injEq] at h
  exact ⟨c4, h.symm⟩

theorem cf_to_tf_core_filter_shape (d : Obj) (out : Obj)
    (h : cf_to_tf_core d = .ok out) : ∃ m, out = filterTruthy m := by
  unfold cf_to_tf_core at h
  rw [except_bind_ok] at h
  obtain ⟨c1, _, h⟩ := h
  rw [except_bind_ok] at h
  obtain ⟨c2, _, h⟩ := h
  rw [except_bind_ok] at h
  obtain ⟨c3, _, h⟩ := h
  rw [except_bind_ok] at h
  obtain ⟨c4, _, h⟩ := h
  simp only [pure, Except.pure, Except.ok.injEq] at h
  exact ⟨_, h.symm⟩

/-- C9: a document produced by a successful conversion in either
direction never has a top-level key mapping to an empty mapping or empty
sequence — both entry points end by dropping every non-truthy section. -/
theorem C9_no_empty_sections (d out : Obj) :
    (tf_to_cf d = .ok out → noEmptyTop out = true) ∧
    (cf_to_tf d = .ok out → noEmptyTop out = true) := by
  constructor
  · intro h
    unfold tf_to_cf at h
    cases hc : tf_to_cf_core d with
    | error c => rw [hc] at h; exact absurd h (by simp)
    | ok v =>
      rw [hc] at h
      injection h with h
      subst h
      obtain ⟨m, rfl⟩ := tf_to_cf_core_filter_shape d v hc
      exact noEmptyTop_filterTruthy m
  · intro h
    unfold cf_to_tf at h
    cases hc : cf_to_tf_core d with
    | error c => rw [hc] at h; exact absurd h (by simp)
    | ok v =>
      rw [hc] at h
      injection h with h
      subst h
      obtain ⟨m, rfl⟩ := cf_to_tf_core_filter_shape d v hc
      exact noEmptyTop_filterTruthy m

theorem C9_no_empty_sections_witness :
    tf_to_cf [] = .ok [("AWSTemplateFormatVersion", .vstr "2010-09-09"),
      ("Description", .vstr "Converted from Terraform")] ∧
    noEmptyTop [("AWSTemplateFormatVersion", .vstr "2010-09-09"),
      ("Description", .vstr "Converted from Terraform")] = true ∧
    cf_to_tf [] = .ok [("terraform", .vobj [("required_providers",
      .vobj [("aws", .vobj [("source", .vstr "hashicorp/aws"),
        ("version", .vstr "~> 4.0")])])]),
      ("provider", .vobj [("aws", .vobj [])])] ∧
    noEmptyTop [("terraform", .vobj [("required_providers",
      .vobj [("aws", .vobj [("source", .vstr "hashicorp/aws"),
        ("version", .vstr "~> 4.0")])])]),
      ("provider", .vobj [("aws", .vobj [])])] = true :=
  ⟨rfl,
   (C9_no_empty_sections [] [("AWSTemplateFormatVersion", .vstr "2010-09-09"),
      ("Description", .vstr "Converted from Terraform")]).1 rfl,
   rfl,
   (C9_no_empty_sections [] [("terraform", .vobj [("required_providers",
      .vobj [("aws", .vobj [("source", .vstr "hashicorp/aws"),
        ("version", .vstr "~> 4.0")])])]),
      ("provider", .vobj [("aws", .vobj [])])]).2 rfl⟩

theorem sectionUpdate_preserves (m : Obj) (k : String) (extra : Obj) (m' : Obj)
    (h : sectionUpdate m k extra = .ok m') (k' : String) (hne : k ≠ k') :
    pyGet m' k' = pyGet m k' := by
  unfold sectionUpdate at h
  cases hm : pyGet m k with
  | none => rw [hm] at h; simp at h
  | some v =>
    rw [hm] at h
    cases v with
    | vobj cur =>
      simp only [Except.ok.injEq] at h
      rw [← h]
      exact pyGet_setKey_ne _ _ _ _ hne
    | vnull => simp at h
    | vbool b => simp at h
    | vint n => simp at h
    | vstr s => simp at h
    | vlist l => simp at h

theorem provider_region_step_preserves (ac : Value) (cf cf' : Obj)
    (h : provider_region_step ac cf = .ok cf') (k : String)
    (hk : k ≠ "Mappings") : pyGet cf' k = pyGet cf k := by
  unfold provider_region_step at h
  rw [except_bind_ok] at h
  obtain ⟨hasRegion, _, h⟩ := h
  split at h
  · rw [except_bind_ok] at h
    obtain ⟨region, _, h⟩ := h
    cases hm : pyGetD cf "Mappings" (.vobj []) with
    | vobj mp =>
      rw [hm] at h
      simp only [pure, Except.pure, Except.ok.injEq] at h
      rw [← h]
      exact pyGet_setKey_ne _ _ _ _ (Ne.symm hk)
    | vnull => rw [hm] at h; simp at h
    | vbool b => rw [hm] at h; simp at h
    | vint n => rw [hm] at h; simp at h
    | vstr s => rw [hm] at h; simp at h
    | vlist l => rw [hm] at h; simp at h
  · simp only [pure, Except.pure, Except.ok.injEq] at h
    rw [← h]

theorem provider_role_step_preserves (ac : Value) (cf cf' : Obj)
    (h : provider_role_step ac cf = .ok cf') (k : String)
    (hk : k ≠ "Parameters") : pyGet cf' k = pyGet cf k := by
  unfold provider_role_step at h
  rw [except_bind_ok] at h
  obtain ⟨hasRole, _, h⟩ := h
  split at h
  · rw [except_bind_ok] at h
    obtain ⟨ar, _, h⟩ := h
    rw [except_bind_ok] at h
    obtain ⟨role_arn, _, h⟩ := h
    split at h
    · cases hp : pyGetD cf "Parameters" .vnull with
      | vobj ps =>
        rw [hp] at h
        simp only [pure, Except.pure, Except.ok.injEq] at h
        rw [← h]
        exact pyGet_setKey_ne _ _ _ _ (Ne.symm hk)
      | vnull => rw [hp] at h; simp at h
      | vbool b => rw [hp] at h; simp at h
      | vint n => rw [hp] at h; simp at h
      | vstr s => rw [hp] at h; simp at h
      | vlist l => rw [hp] at h; simp at h
    · simp only [pure, Except.pure, Except.ok.injEq] at h
      rw [← h]
  · simp only [pure, Except.pure, Except.ok.injEq] at h
    rw [← h]

theorem handle_provider_preserves (pc : Value) (cf cf' : Obj)
    (h : _handle_provider_config pc cf = .ok cf') (k : String)
    (h1 : k ≠ "Mappings") (h2 : k ≠ "Parameters") :
    pyGet cf' k = pyGet cf k := by
  unfold _handle_provider_config at h
  rw [except_bind_ok] at h
  obtain ⟨hasAws, _, h⟩ := h
  split at h
  · rw [except_bind_ok] at h
    obtain ⟨ac, _, h⟩ := h
    rw [except_bind_ok] at h
    obtain ⟨cf1, hcf1, h⟩ := h
    rw [provider_role_step_preserves ac cf1 cf' h k h2]
    exact provider_region_step_preserves ac cf cf1 hcf1 k h1
  · simp only [pure, Except.pure, Except.ok.injEq] at h
    rw [← h]

theorem tf_step_variables_preserves (d : Obj) (cf cf' : Obj)
    (h : tf_step_variables d cf = .ok cf') (k : String)
    (hk : k ≠ "Parameters") : pyGet cf' k = pyGet cf k := by
  unfold tf_step_variables at h
  split at h
  · rw [except_bind_ok] at h
    obtain ⟨ps, _, h⟩ := h
    exact sectionUpdate_preserves _ _ _ _ h k (Ne.symm hk)
  · simp only [pure, Except.pure, Except.ok.injEq] at h
    rw [← h]

theorem tf_step_resources_preserves (d : Obj) (cf cf' : Obj)
    (h : tf_step_resources d cf = .ok cf') (k : String)
    (hk : k ≠ "Resources") : pyGet cf' k = pyGet cf k := by
  unfold tf_step_resources at h
  split at h
  · rw [except_bind_ok] at h
    obtain ⟨rs, _, h⟩ := h
    exact sectionUpdate_preserves _ _ _ _ h k (Ne.symm hk)
  · simp only [pure, Except.pure, Except.ok.injEq] at h
    rw [← h]

theorem tf_step_outputs_preserves (d : Obj) (cf cf' : Obj)
    (h : tf_step_outputs d cf = .ok cf') (k : String)
    (hk : k ≠ "Outputs") : pyGet cf' k = pyGet cf k := by
  unfold tf_step_outputs at h
  split at h
  · rw [except_bind_ok] at h
    obtain ⟨os, _, h⟩ := h
    exact sectionUpdate_preserves _ _ _ _ h k (Ne.symm hk)
  · simp only [pure, Except.pure, Except.ok.injEq] at h
    rw [← h]

theorem tf_step_provider_preserves (d : Obj) (cf cf' : Obj)
    (h : tf_step_provider d cf = .ok cf') (k : String)
    (h1 : k ≠ "Mappings") (h2 : k ≠ "Parameters") :
    pyGet cf' k = pyGet cf k := by
  unfold tf_step_provider at h
  split at h
  · exact handle_provider_preserves _ _ _ h k h1 h2
  · simp only [pure, Except.pure, Except.ok.injEq] at h
    rw [← h]

/-- C10: every successful `tf_to_cf` result carries the fixed header —
`AWSTemplateFormatVersion` equal to `"2010-09-09"` and the non-empty
`Description` `"Converted from Terraform"` — whatever the input held. -/
theorem C10_fixed_header (d out : Obj) (h : tf_to_cf d = .ok out) :
    pyGet out "AWSTemplateFormatVersion" = some (.vstr "2010-09-09") ∧
    pyGet out "Description" = some (.vstr "Converted from Terraform") := by
  unfold tf_to_cf at h
  cases hc : tf_to_cf_core d with
  | error c => rw [hc] at h; exact absurd h (by simp)
  | ok v =>
    rw [hc] at h
    injection h with h
    subst h
    unfold tf_to_cf_core at hc
    rw [except_bind_ok] at hc
    obtain ⟨cf1, h1, hc⟩ := hc
    rw [except_bind_ok] at hc
    obtain ⟨cf2, h2, hc⟩ := hc
    rw [except_bind_ok] at hc
    obtain ⟨cf3, h3, hc⟩ := hc
    rw [except_bind_ok] at hc
    obtain ⟨cf4, h4, hc⟩ := hc
    simp only [pure, Except.pure, Except.ok.injEq] at hc
    subst hc
    constructor
    · refine pyGet_filterTruthy _ _ _ (by rfl) ?_
      rw [tf_step_provider_preserves d cf3 cf4 h4 _ (by decide) (by decide),
        tf_step_outputs_preserves d cf2 cf3 h3 _ (by decide),
        tf_step_resources_preserves d cf1 cf2 h2 _ (by decide),
        tf_step_variables_preserves d initial_cf_template cf1 h1 _ (by decide)]
      rfl
    · refine pyGet_filterTruthy _ _ _ (by rfl) ?_
      rw [tf_step_provider_preserves d cf3 cf4 h4 _ (by decide) (by decide),
        tf_step_outputs_preserves d cf2 cf3 h3 _ (by decide),
        tf_step_resources_preserves d cf1 cf2 h2 _ (by decide),
        tf_step_variables_preserves d initial_cf_template cf1 h1 _ (by decide)]
      rfl

theorem C10_fixed_header_witness :
    pyGet [("AWSTemplateFormatVersion", Value.vstr "2010-09-09"),
      ("Description", .vstr "Converted from Terraform")]
      "AWSTemplateFormatVersion" = some (.vstr "2010-09-09") ∧
    pyGet [("AWSTemplateFormatVersion", Value.vstr "2010-09-09"),
      ("Description", .vstr "Converted from Terraform")]
      "Description" = some (.vstr "Converted from Terraform") :=
  C10_fixed_header [] [("AWSTemplateFormatVersion", .vstr "2010-09-09"),
    ("Description", .vstr "Converted from Terraform")] rfl

/-- The recognized intrinsic-function keys of `cf_to_tf_functions`
(`converter.py:64-71`). -/
def cf_intrinsic_names : List String :=
  ["Fn::Join", "Fn::Sub", "Ref", "Fn::GetAtt", "Fn::Select", "Condition"]

mutual

/-- No position of the tree is a single-entry mapping keyed by a
recognized intrinsic-function name — the condition under which
`_convert_cf_value_to_tf` dispatches no handler anywhere. -/
def no_cf_intrinsic : Value → Bool
  | .vobj kvs =>
    (match kvs with
     | [(k, _)] => !(cf_intrinsic_names.contains k)
     | _ => true) && no_cf_intrinsic_obj kvs
  | .vlist l => no_cf_intrinsic_list l
  | _ => true

def no_cf_intrinsic_obj : List (String × Value) → Bool
  | [] => true
  | (_, v) :: rest => no_cf_intrinsic v && no_cf_intrinsic_obj rest

def no_cf_intrinsic_list : List Value → Bool
  | [] => true
  | v :: rest => no_cf_intrinsic v && no_cf_intrinsic_list rest

end

/-- The string triggers no `tf_to_cf_functions` dispatch: either no `${`
interpolation marker, or none of the four recognized substrings. -/
def tf_trigger_free_str (s : String) : Bool :=
  !(strContains s "$\x7b" && (strContains s "join" || strContains s "format" ||
    strContains s "aws_region" || strContains s "aws_account_id"))

mutual

/-- No string position of the tree triggers `_convert_tf_value_to_cf`'s
interpolation dispatch. -/
def no_tf_trigger : Value → Bool
  | .vstr s => tf_trigger_free_str s
  | .vobj kvs => no_tf_trigger_obj kvs
  | .vlist l => no_tf_trigger_list l
  | _ => true

def no_tf_trigger_obj : List (String × Value) → Bool
  | [] => true
  | (_, v) :: rest => no_tf_trigger v && no_tf_trigger_obj rest

def no_tf_trigger_list : List Value → Bool
  | [] => true
  | v :: rest => no_tf_trigger v && no_tf_trigger_list rest

end

mutual

theorem cf_id : ∀ (v : Value), no_cf_intrinsic v = true →
    _convert_cf_value_to_tf v = .ok v
  | .vnull, _ => rfl
  | .vbool _, _ => rfl
  | .vint _, _ => rfl
  | .vstr _, _ => rfl
  | .vlist l, h => by
    have hl : no_cf_intrinsic_list l = true := by
      simpa [no_cf_intrinsic] using h
    simp [_convert_cf_value_to_tf, cf_id_list l hl]
  | .vobj [], _ => by
    simp [_convert_cf_value_to_tf, cfObjToTf]
  | .vobj [(k, params)], h => by
    have hx : (!(cf_intrinsic_names.contains k) && (no_cf_intrinsic params && true)) = true := by
      simpa [no_cf_intrinsic, no_cf_intrinsic_obj] using h
    simp only [Bool.and_true, Bool.and_eq_true, Bool.not_eq_true'] at hx
    obtain ⟨hk, hp⟩ := hx
    simp only [cf_intrinsic_names, List.contains_cons,
      List.contains_nil, Bool.or_false, Bool.or_eq_false_iff, beq_eq_false_iff_ne,
      ne_eq] at hk
    obtain ⟨hk1, hk2, hk3, hk4, hk5, hk6⟩ := hk
    simp [_convert_cf_value_to_tf, hk1, hk2, hk3, hk4, hk5, hk6,
      cf_id params hp]
  | .vobj ((k1, v1) :: (k2, v2) :: rest), h => by
    have hx : no_cf_intrinsic_obj ((k1, v1) :: (k2, v2) :: rest) = true := by
      simpa [no_cf_intrinsic] using h
    simp [_convert_cf_value_to_tf, cf_id_obj _ hx]

theorem cf_id_obj : ∀ (kvs : List (String × Value)),
    no_cf_intrinsic_obj kvs = true → cfObjToTf kvs = .ok kvs
  | [], _ => rfl
  | (k, v) :: rest, h => by
    simp only [no_cf_intrinsic_obj, Bool.and_eq_true] at h
    simp [cfObjToTf, cf_id v h.1, cf_id_obj rest h.2, Bind.bind, Except.bind, pure, Except.pure]

theorem cf_id_list : ∀ (l : List Value),
    no_cf_intrinsic_list l = true → cfListToTf l = .ok l
  | [], _ => rfl
  | v :: rest, h => by
    simp only [no_cf_intrinsic_list, Bool.and_eq_true] at h
    simp [cfListToTf, cf_id v h.1, cf_id_list rest h.2, Bind.bind, Except.bind, pure, Except.pure]

end

mutual

theorem tf_id : ∀ (v : Value), no_tf_trigger v = true →
    _convert_tf_value_to_cf v = .ok v
  | .vnull, _ => rfl
  | .vbool _, _ => rfl
  | .vint _, _ => rfl
  | .vstr s, h => by
    have hs : tf_trigger_free_str s = true := by
      simpa [no_tf_trigger] using h
    simp only [tf_trigger_free_str, Bool.not_eq_true'] at hs
    by_cases hb : strContains s "$\x7b" = true
    · simp only [hb, Bool.true_and] at hs
      simp only [Bool.or_eq_false_iff] at hs
      obtain ⟨⟨⟨hj, hf⟩, hr⟩, ha⟩ := hs
      simp [_convert_tf_value_to_cf, hb, hj, hf, hr, ha]
    · have hb' : strContains s "$\x7b" = false := by simpa using hb
      simp [_convert_tf_value_to_cf, hb']
  | .vlist l, h => by
    have hl : no_tf_trigger_list l = true := by
      simpa [no_tf_trigger] using h
    simp [_convert_tf_value_to_cf, tf_id_list l hl]
  | .vobj kvs, h => by
    have ho : no_tf_trigger_obj kvs = true := by
      simpa [no_tf_trigger] using h
    simp [_convert_tf_value_to_cf, tf_id_obj kvs ho]

theorem tf_id_obj : ∀ (kvs : List (String × Value)),
    no_tf_trigger_obj kvs = true → tfObjToCf kvs = .ok kvs
  | [], _ => rfl
  | (k, v) :: rest, h => by
    simp only [no_tf_trigger_obj, Bool.and_eq_true] at h
    simp [tfObjToCf, tf_id v h.1, tf_id_obj rest h.2, Bind.bind, Except.bind, pure, Except.pure]

theorem tf_id_list : ∀ (l : List Value),
    no_tf_trigger_list l = true → tfListToCf l = .ok l
  | [], _ => rfl
  | v :: rest, h => by
    simp only [no_tf_trigger_list, Bool.and_eq_true] at h
    simp [tfListToCf, tf_id v h.1, tf_id_list rest h.2, Bind.bind, Except.bind, pure, Except.pure]

end

/-- C4: on a tree containing no recognized function form — no
single-entry mapping keyed by an intrinsic name for the declarative
direction, no interpolation trigger substring for the block direction —
value translation in either direction is the identity: the value comes
back unchanged in every scalar, mapping, and sequence position. -/
theorem C4_identity_on_unrecognized (v : Value) :
    (no_cf_intrinsic v = true → _convert_cf_value_to_tf v = .ok v) ∧
    (no_tf_trigger v = true → _convert_tf_value_to_cf v = .ok v) :=
  ⟨cf_id v, tf_id v⟩

/-- A value exercising scalar, mapping, and sequence positions, an
interpolation without a trigger substring, and a single-entry mapping
with an unrecognized key. -/
def c4_example : Value :=
  .vobj [("Tags", .vlist [.vstr "$\x7bvar.env\x7d", .vint 1,
    .vobj [("Name", .vstr "app"), ("deep", .vobj [("X", .vnull)])]])]

theorem C4_identity_witness :
    no_cf_intrinsic c4_example = true ∧
    no_tf_trigger c4_example = true ∧
    _convert_cf_value_to_tf c4_example = .ok c4_example ∧
    _convert_tf_value_to_cf c4_example = .ok c4_example :=
  ⟨rfl, rfl, (C4_identity_on_unrecognized c4_example).1 rfl,
   (C4_identity_on_unrecognized c4_example).2 rfl⟩
